import Mathlib

/-!
Shallow embedding of `src/swa.rs` from the single-window-app repository.

The file models the `run_with` event loop of the `SingleWindowApp` trait:
the per-iteration closure passed to `event_loop.run` (rendering, control-flow
scheduling, and the window-event match), the background-task relay closure
(`send_event` result mapped to `AppState`), and a driver that feeds a list of
events through the closure until the control flow becomes `Exit`.

Client callbacks are not interpreted: each invocation the loop makes on the
client (`render`, `press_key`, ...) is recorded as an element of an observable
trace, in invocation order, so that theorems can speak about exactly which
callbacks a given event sequence triggers and with which arguments.

Physical sizes, positions and scale factors are `f64` in the source; they are
modelled as rationals, and the external `LogicalSize::from_physical` /
`LogicalPosition::from_physical` conversion (supplied by the glutin binding,
an external collaborator) as componentwise division by the scale factor,
which is the formula that binding uses.
-/

namespace Swa

/-- The `AppState` enum of `src/swa.rs`: the two-valued lifecycle signal
(`On` / `Off`) returned to the background task by the relay. -/
inductive AppState where
  | On
  | Off
deriving DecidableEq, Repr

/-- The `glutin::event::ElementState` enum: whether a key or mouse button
event is a press or a release. -/
inductive ElementState where
  | Pressed
  | Released
deriving DecidableEq, Repr

/-- Virtual key codes (`glutin::event::VirtualKeyCode`), abstracted as
natural numbers: the loop only moves them from event to callback. -/
abbrev VirtualKeyCode := Nat

/-- Mouse buttons (`glutin::event::MouseButton`), abstracted as naturals. -/
abbrev MouseButton := Nat

/-- Modifier sets (`glutin::event::ModifiersState`), abstracted as naturals. -/
abbrev ModifiersState := Nat

/-- The fields of `glutin::event::KeyboardInput` that `run_with` reads:
the optional resolved key code and the press/release state. -/
structure KeyboardInput where
  virtual_keycode : Option VirtualKeyCode
  state : ElementState
deriving DecidableEq, Repr

/-- A physical size or position: a pair of rational coordinates. -/
abbrev Physical := ℚ × ℚ

/-- A logical size or position, after scale-factor conversion. -/
abbrev Logical := ℚ × ℚ

/-- The external glutin conversion `LogicalSize::from_physical` /
`LogicalPosition::from_physical`: componentwise division of physical
coordinates by the scale factor. -/
def from_physical (physical : Physical) (scale_factor : ℚ) : Logical :=
  (physical.1 / scale_factor, physical.2 / scale_factor)

/-- The `glutin::event::WindowEvent` variants distinguished by the match in
`run_with` (src/swa.rs lines 81-135); `Other` stands for every variant that
falls into the `other_window_event` arm, which only prints a debug line. -/
inductive WindowEvent where
  | CloseRequested
  | Destroyed
  | KeyboardInput (input : KeyboardInput)
  | Focused (b : Bool)
  | Resized (new_physical_size : Physical)
  | CursorMoved (physical_position : Physical)
  | ModifiersChanged (new_modifiers : ModifiersState)
  | MouseInput (state : ElementState) (button : MouseButton)
  | ScaleFactorChanged (new_scale_factor : ℚ)
  | Other
deriving DecidableEq, Repr

/-- The `glutin::event::Event` variants distinguished by the outer match in
`run_with` (src/swa.rs lines 77-140): a window event, a user event carrying
an application update message of type `U` injected through the event-loop
proxy, or any other glutin event (`other_glutin_event` arm, debug print
only). -/
inductive Event (U : Type) where
  | WindowEvent (window_event : WindowEvent)
  | UserEvent (message : U)
  | OtherGlutin
deriving DecidableEq, Repr

/-- One observable callback invocation that `run_with` makes on the
`SingleWindowApp` client, with its argument. -/
inductive Callback (U : Type) where
  | render
  | receive (message : U)
  | press_key (virtual_key : VirtualKeyCode)
  | release_key (virtual_key : VirtualKeyCode)
  | set_focus (focus : Bool)
  | move_cursor (new_position : Logical)
  | press_mouse (button : MouseButton)
  | release_mouse (button : MouseButton)
  | change_modifiers (modifiers : ModifiersState)
  | resize (new_size : Logical)
deriving DecidableEq, Repr

/-- True exactly for the `Callback.render` invocation. -/
def isRender {U : Type} : Callback U → Bool
  | Callback.render => true
  | _ => false

/-- True exactly for a `Callback.receive` invocation. -/
def isReceive {U : Type} : Callback U → Bool
  | Callback.receive _ => true
  | _ => false

/-- The `glutin::event_loop::ControlFlow` values `run_with` writes:
`WaitUntil` with an absolute wake time in nanoseconds, or `Exit`. -/
inductive ControlFlow where
  | WaitUntil (t : Nat)
  | Exit
deriving DecidableEq, Repr

/-- The fixed render interval from src/swa.rs line 73:
`Duration::from_nanos(16_666_667)`. -/
def frameInterval : Nat := 16666667

/-- The window-event match of `run_with` (src/swa.rs lines 81-135), as a
function from the current scale factor and a window event to: the list of
client callbacks invoked during event processing (in order), the scale
factor after the event, and whether the arm set the control flow to `Exit`.

The `KeyboardInput` arm reproduces the source exactly: when
`input.virtual_keycode` is `Some`, the state match dispatches `press_key`
or `release_key`, and then line 96 invokes `self.press_key(virtual_key)`
unconditionally, for released keys as well as pressed ones. The
`ScaleFactorChanged` arm only assigns the new factor; the
`other_window_event` arm only prints. -/
def handleWindowEvent {U : Type} (scale_factor : ℚ) :
    WindowEvent → List (Callback U) × ℚ × Bool
  | WindowEvent.CloseRequested => ([], scale_factor, true)
  | WindowEvent.Destroyed => ([], scale_factor, true)
  | WindowEvent.KeyboardInput input =>
    match input.virtual_keycode with
    | some virtual_key =>
      ((match input.state with
        | ElementState.Pressed => [Callback.press_key virtual_key]
        | ElementState.Released => [Callback.release_key virtual_key]) ++
        [Callback.press_key virtual_key],
       scale_factor, false)
    | none => ([], scale_factor, false)
  | WindowEvent.Focused b => ([Callback.set_focus b], scale_factor, false)
  | WindowEvent.Resized new_physical_size =>
    ([Callback.resize (from_physical new_physical_size scale_factor)],
     scale_factor, false)
  | WindowEvent.CursorMoved physical_position =>
    ([Callback.move_cursor (from_physical physical_position scale_factor)],
     scale_factor, false)
  | WindowEvent.ModifiersChanged new_modifiers =>
    ([Callback.change_modifiers new_modifiers], scale_factor, false)
  | WindowEvent.MouseInput state button =>
    (match state with
     | ElementState.Pressed => ([Callback.press_mouse button], scale_factor, false)
     | ElementState.Released => ([Callback.release_mouse button], scale_factor, false))
  | WindowEvent.ScaleFactorChanged new_scale_factor => ([], new_scale_factor, false)
  | WindowEvent.Other => ([], scale_factor, false)

/-- The result of one invocation of the `event_loop.run` closure: the
client callbacks invoked during the iteration (in order), the scale factor
after the iteration, and the final value of `*control_flow`. -/
structure BodyResult (U : Type) where
  callbacks : List (Callback U)
  scale_factor : ℚ
  control_flow : ControlFlow
deriving DecidableEq, Repr

/-- One invocation of the closure passed to `event_loop.run`
(src/swa.rs lines 67-141). `now` is the instant read at line 73. The
closure first calls `self.render`, then sets the control flow to
`WaitUntil (now + 16_666_667 ns)`, then processes the event: a
`WindowEvent` goes through `handleWindowEvent` (whose `CloseRequested` /
`Destroyed` arms overwrite the control flow with `Exit`); every other
glutin event — including `UserEvent`, the relayed application update
message — falls into the `other_glutin_event` arm at lines 136-139, which
only prints a debug line and in particular never calls `self.receive`. -/
def loopBody {U : Type} (now : Nat) (scale_factor : ℚ) : Event U → BodyResult U
  | Event.WindowEvent window_event =>
    let r := handleWindowEvent scale_factor window_event
    { callbacks := Callback.render :: r.1
      scale_factor := r.2.1
      control_flow :=
        if r.2.2 then ControlFlow.Exit else ControlFlow.WaitUntil (now + frameInterval) }
  | Event.UserEvent _ =>
    { callbacks := [Callback.render]
      scale_factor := scale_factor
      control_flow := ControlFlow.WaitUntil (now + frameInterval) }
  | Event.OtherGlutin =>
    { callbacks := [Callback.render]
      scale_factor := scale_factor
      control_flow := ControlFlow.WaitUntil (now + frameInterval) }

/-- True for the events whose arm sets the control flow to `Exit`:
`CloseRequested` and `Destroyed`. -/
def requestsExit {U : Type} : Event U → Bool
  | Event.WindowEvent WindowEvent.CloseRequested => true
  | Event.WindowEvent WindowEvent.Destroyed => true
  | _ => false

/-- The event-loop driver: feed a list of events through `loopBody` in
order, threading the scale factor, and stop as soon as an iteration leaves
the control flow at `Exit` (the remaining events are never processed, as
the platform loop driver stops invoking the closure). Returns the
concatenated callback trace and the final scale factor. The wake instant
does not influence callbacks or state, so the driver passes `0` for `now`. -/
def runEvents {U : Type} (scale_factor : ℚ) : List (Event U) → List (Callback U) × ℚ
  | [] => ([], scale_factor)
  | e :: rest =>
    let r := loopBody 0 scale_factor e
    if r.control_flow = ControlFlow.Exit then (r.callbacks, r.scale_factor)
    else
      let tail := runEvents r.scale_factor rest
      (r.callbacks ++ tail.1, tail.2)

/-- True when no event of the list requests loop termination (no
`CloseRequested` and no `Destroyed`). -/
def noExit {U : Type} (evts : List (Event U)) : Bool :=
  evts.all (fun e => !requestsExit e)

/-- The scale factor obtained from `scale_factor` after folding a list of
events: only a `ScaleFactorChanged` event replaces it (src/swa.rs
lines 125-130); every other event leaves it unchanged. -/
def factorAfter {U : Type} (scale_factor : ℚ) : List (Event U) → ℚ
  | [] => scale_factor
  | Event.WindowEvent (WindowEvent.ScaleFactorChanged new_scale_factor) :: rest =>
    factorAfter new_scale_factor rest
  | _ :: rest => factorAfter scale_factor rest

/-- The relay closure at src/swa.rs lines 60-63, as a function of the
`send_event` result: `Ok(()) => AppState::On`, `Err(_) => AppState::Off`.
The error payload of `EventLoopClosed` is modelled as `Unit`. -/
def signalOf : Except Unit Unit → AppState
  | Except.ok _ => AppState.On
  | Except.error _ => AppState.Off

/-- Modelled from the spec: the glutin `EventLoopProxy::send_event`
operation, an external collaborator not part of this repository (spec §6,
§4.3). `closedAt = some c` means the main loop tore down its event stream
at time `c` and it stays torn down thereafter; a send at time `t` is
accepted (`Ok`) exactly when the stream has not yet been torn down at `t`,
and rejected (`Err(EventLoopClosed)`) otherwise. -/
def send_event (closedAt : Option Nat) (t : Nat) : Except Unit Unit :=
  match closedAt with
  | none => Except.ok ()
  | some c => if t < c then Except.ok () else Except.error ()

/-- The lifecycle signal observed by the background task for a send attempt
at time `t`: the relay closure applied to the `send_event` result. -/
def update_view (closedAt : Option Nat) (t : Nat) : AppState :=
  signalOf (send_event closedAt t)

/-- One invocation of the `event_loop.run` closure as a relation, one
constructor per arm of the source match (src/swa.rs lines 77-140):
`LoopStep now sf e cbs sf' cf` relates the instant `now`, incoming scale
factor `sf` and event `e` to the callback trace `cbs` of the iteration,
the outgoing scale factor `sf'` and the final control flow `cf`. -/
inductive LoopStep {U : Type} : Nat → ℚ → Event U → List (Callback U) → ℚ → ControlFlow → Prop where
  | closeRequested (now : Nat) (sf : ℚ) :
      LoopStep now sf (Event.WindowEvent WindowEvent.CloseRequested)
        [Callback.render] sf ControlFlow.Exit
  | destroyed (now : Nat) (sf : ℚ) :
      LoopStep now sf (Event.WindowEvent WindowEvent.Destroyed)
        [Callback.render] sf ControlFlow.Exit
  | keyPressed (now : Nat) (sf : ℚ) (k : VirtualKeyCode) :
      LoopStep now sf
        (Event.WindowEvent (WindowEvent.KeyboardInput ⟨some k, ElementState.Pressed⟩))
        [Callback.render, Callback.press_key k, Callback.press_key k] sf
        (ControlFlow.WaitUntil (now + frameInterval))
  | keyReleased (now : Nat) (sf : ℚ) (k : VirtualKeyCode) :
      LoopStep now sf
        (Event.WindowEvent (WindowEvent.KeyboardInput ⟨some k, ElementState.Released⟩))
        [Callback.render, Callback.release_key k, Callback.press_key k] sf
        (ControlFlow.WaitUntil (now + frameInterval))
  | keyUnresolved (now : Nat) (sf : ℚ) (s : ElementState) :
      LoopStep now sf
        (Event.WindowEvent (WindowEvent.KeyboardInput ⟨none, s⟩))
        [Callback.render] sf (ControlFlow.WaitUntil (now + frameInterval))
  | focused (now : Nat) (sf : ℚ) (b : Bool) :
      LoopStep now sf (Event.WindowEvent (WindowEvent.Focused b))
        [Callback.render, Callback.set_focus b] sf
        (ControlFlow.WaitUntil (now + frameInterval))
  | resized (now : Nat) (sf : ℚ) (ps : Physical) :
      LoopStep now sf (Event.WindowEvent (WindowEvent.Resized ps))
        [Callback.render, Callback.resize (from_physical ps sf)] sf
        (ControlFlow.WaitUntil (now + frameInterval))
  | cursorMoved (now : Nat) (sf : ℚ) (pp : Physical) :
      LoopStep now sf (Event.WindowEvent (WindowEvent.CursorMoved pp))
        [Callback.render, Callback.move_cursor (from_physical pp sf)] sf
        (ControlFlow.WaitUntil (now + frameInterval))
  | modifiersChanged (now : Nat) (sf : ℚ) (m : ModifiersState) :
      LoopStep now sf (Event.WindowEvent (WindowEvent.ModifiersChanged m))
        [Callback.render, Callback.change_modifiers m] sf
        (ControlFlow.WaitUntil (now + frameInterval))
  | mousePressed (now : Nat) (sf : ℚ) (b : MouseButton) :
      LoopStep now sf (Event.WindowEvent (WindowEvent.MouseInput ElementState.Pressed b))
        [Callback.render, Callback.press_mouse b] sf
        (ControlFlow.WaitUntil (now + frameInterval))
  | mouseReleased (now : Nat) (sf : ℚ) (b : MouseButton) :
      LoopStep now sf (Event.WindowEvent (WindowEvent.MouseInput ElementState.Released b))
        [Callback.render, Callback.release_mouse b] sf
        (ControlFlow.WaitUntil (now + frameInterval))
  | scaleFactorChanged (now : Nat) (sf nf : ℚ) :
      LoopStep now sf (Event.WindowEvent (WindowEvent.ScaleFactorChanged nf))
        [Callback.render] nf (ControlFlow.WaitUntil (now + frameInterval))
  | otherWindow (now : Nat) (sf : ℚ) :
      LoopStep now sf (Event.WindowEvent WindowEvent.Other)
        [Callback.render] sf (ControlFlow.WaitUntil (now + frameInterval))
  | userEvent (now : Nat) (sf : ℚ) (u : U) :
      LoopStep now sf (Event.UserEvent u)
        [Callback.render] sf (ControlFlow.WaitUntil (now + frameInterval))
  | otherGlutin (now : Nat) (sf : ℚ) :
      LoopStep now sf Event.OtherGlutin
        [Callback.render] sf (ControlFlow.WaitUntil (now + frameInterval))

/-- The whole run of the main loop over a sequence of events, as a
relation built from `LoopStep`: the run stops at the first iteration whose
control flow is `Exit`; otherwise the iteration's callbacks are prepended
to the trace of the remaining events. -/
inductive RunRel {U : Type} : ℚ → List (Event U) → List (Callback U) → ℚ → Prop where
  | nil (sf : ℚ) : RunRel sf [] [] sf
  | exits (sf : ℚ) (e : Event U) (rest : List (Event U)) (cbs : List (Callback U)) (sf' : ℚ) :
      LoopStep 0 sf e cbs sf' ControlFlow.Exit →
      RunRel sf (e :: rest) cbs sf'
  | conts (sf : ℚ) (e : Event U) (rest : List (Event U)) (cbs : List (Callback U)) (sf' : ℚ)
      (t : Nat) (cbs' : List (Callback U)) (sf'' : ℚ) :
      LoopStep 0 sf e cbs sf' (ControlFlow.WaitUntil t) →
      RunRel sf' rest cbs' sf'' →
      RunRel sf (e :: rest) (cbs ++ cbs') sf''

/-- Helper: no arm of the loop body ever invokes `receive` — the
`UserEvent` carrying a relayed message falls into the debug-print
catch-all. -/
theorem loopBody_no_receive {U : Type} (now : Nat) (sf : ℚ) (e : Event U) :
    ((loopBody now sf e).callbacks).filter isReceive = [] := by
  rcases e with we | u | _
  · rcases we with _ | _ | ⟨vk, s⟩ | b | ps | pp | m | ⟨ms, mb⟩ | nf | _ <;> try rfl
    · cases vk <;> cases s <;> rfl
    · cases ms <;> rfl
  · rfl
  · rfl

/-- Helper: an event that does not request exit leaves the control flow at
the `WaitUntil` value written before event processing. -/
theorem loopBody_waits {U : Type} (now : Nat) (sf : ℚ) (e : Event U)
    (h : requestsExit e = false) :
    (loopBody now sf e).control_flow = ControlFlow.WaitUntil (now + frameInterval) := by
  rcases e with we | u | _
  · rcases we with _ | _ | ⟨vk, s⟩ | b | ps | pp | m | ⟨ms, mb⟩ | nf | _ <;>
      simp_all [requestsExit, loopBody, handleWindowEvent]
    · cases vk <;> cases s <;> rfl
    · cases ms <;> rfl
  · rfl
  · rfl

/-- Helper: `CloseRequested` and `Destroyed` leave the control flow at
`Exit`. -/
theorem loopBody_exits {U : Type} (now : Nat) (sf : ℚ) (e : Event U)
    (h : requestsExit e = true) :
    (loopBody now sf e).control_flow = ControlFlow.Exit := by
  rcases e with we | u | _
  · rcases we with _ | _ | ⟨vk, s⟩ | b | ps | pp | m | ⟨ms, mb⟩ | nf | _ <;>
      first
        | rfl
        | simp_all [requestsExit]
  · simp [requestsExit] at h
  · simp [requestsExit] at h

/-- Helper: only a `ScaleFactorChanged` event modifies the scale factor. -/
theorem loopBody_scale {U : Type} (now : Nat) (sf : ℚ) (e : Event U) :
    (loopBody now sf e).scale_factor =
      match e with
      | Event.WindowEvent (WindowEvent.ScaleFactorChanged nf) => nf
      | _ => sf := by
  rcases e with we | u | _
  · rcases we with _ | _ | ⟨vk, s⟩ | b | ps | pp | m | ⟨ms, mb⟩ | nf | _ <;> try rfl
    · cases vk <;> cases s <;> rfl
    · cases ms <;> rfl
  · rfl
  · rfl

/-- C1: contrary to the spec's delivery contract, the main loop never
dispatches a relayed Application Update Message to the client's `receive`
callback: over any event sequence — user events included — the callback
trace of `run_with` contains no `receive` invocation, because
`Event::UserEvent` falls into the `other_glutin_event` debug-print arm
(src/swa.rs lines 136-139) and `self.receive` is never called. -/
theorem receive_never_invoked {U : Type} (sf : ℚ) (evts : List (Event U)) :
    ((runEvents sf evts).1).filter isReceive = [] := by
  induction evts generalizing sf with
  | nil => rfl
  | cons e rest ih =>
    simp only [runEvents]
    split
    · exact loopBody_no_receive 0 sf e
    · simp [List.filter_append, loopBody_no_receive, ih]

/-- C2 counterexample: a `KeyInput` event with resolvable key code `0` and
state `Released` does not produce exactly the single `release_key`
invocation — the unconditional `self.press_key` at src/swa.rs line 96 runs
for released keys too. -/
theorem released_key_exactly_one_cex :
    (handleWindowEvent (U := Unit) 1
        (WindowEvent.KeyboardInput ⟨some 0, ElementState.Released⟩)).1
      ≠ [Callback.release_key 0] := by
  decide

/-- C2 amended: a `KeyInput` event with a resolvable key code and state
`Released` invokes `release_key` exactly once, followed by one spurious
`press_key` invocation with the same key (the unconditional dispatch after
the state match); no other callback is invoked for that event. -/
theorem released_key_dispatch {U : Type} (sf : ℚ) (k : VirtualKeyCode) :
    (handleWindowEvent (U := U) sf
        (WindowEvent.KeyboardInput ⟨some k, ElementState.Released⟩)).1
      = [Callback.release_key k, Callback.press_key k] := rfl

/-- C3: a `KeyInput` event with a resolvable key code and state `Pressed`
invokes `press_key` exactly twice for that single event — once from the
state match and once from the unconditional dispatch after it — and no
other callback. -/
theorem pressed_key_double_dispatch {U : Type} (sf : ℚ) (k : VirtualKeyCode) :
    (handleWindowEvent (U := U) sf
        (WindowEvent.KeyboardInput ⟨some k, ElementState.Pressed⟩)).1
      = [Callback.press_key k, Callback.press_key k] := rfl

/-- C9: a `KeyInput` event whose key code is not resolvable dispatches no
callback at all (only the render that precedes event processing appears in
the iteration's trace), leaves the scale factor unchanged, keeps the
normal wait-until control flow, and the translation is a total function —
no error value exists to be raised. -/
theorem unresolved_key_no_dispatch {U : Type} (now : Nat) (sf : ℚ) (s : ElementState) :
    loopBody (U := U) now sf
        (Event.WindowEvent (WindowEvent.KeyboardInput ⟨none, s⟩))
      = { callbacks := [Callback.render]
          scale_factor := sf
          control_flow := ControlFlow.WaitUntil (now + frameInterval) } := rfl

/-- C5: the relay's lifecycle signal is `On` exactly when `send_event`
accepted the message, `Off` exactly when the main loop's event stream has
been torn down (`send_event` returned `EventLoopClosed`), and the signal
is a deterministic function of acceptance alone. -/
theorem send_signal_iff (closedAt : Option Nat) (t : Nat) :
    (update_view closedAt t = AppState.On ↔ send_event closedAt t = Except.ok ()) ∧
    (update_view closedAt t = AppState.Off ↔ send_event closedAt t = Except.error ()) ∧
    (update_view closedAt t = AppState.Off ↔ ∃ c, closedAt = some c ∧ c ≤ t) ∧
    (∀ r₁ r₂ : Except Unit Unit, r₁.isOk = r₂.isOk → signalOf r₁ = signalOf r₂) := by
  refine ⟨?_, ?_, ?_, ?_⟩
  · cases closedAt with
    | none => simp [update_view, send_event, signalOf]
    | some c =>
      by_cases hc : t < c <;>
        simp [update_view, send_event, signalOf, hc]
  · cases closedAt with
    | none => simp [update_view, send_event, signalOf]
    | some c =>
      by_cases hc : t < c <;>
        simp [update_view, send_event, signalOf, hc]
  · cases closedAt with
    | none => simp [update_view, send_event, signalOf]
    | some c =>
      by_cases hc : t < c <;>
        simp [update_view, send_event, signalOf, hc] <;> omega
  · intro r₁ r₂ h
    rcases r₁ with e₁ | v₁ <;> rcases r₂ with e₂ | v₂ <;>
      simp_all [signalOf, Except.isOk, Except.toBool]

/-- C5 witness: at the concrete instant `0` with the loop torn down at
time `0`, the signal is `Off` exactly because the send was rejected. -/
theorem send_signal_iff_witness :
    update_view (some 0) 0 = AppState.Off ↔ send_event (some 0) 0 = Except.error () :=
  (send_signal_iff (some 0) 0).2.1

/-- C6: once a send attempt observes `Off`, every later send attempt also
observes `Off` — the event-stream teardown is permanent, so the lifecycle
transition `On → Off` happens at most once and `Off` is terminal. -/
theorem off_terminal (closedAt : Option Nat) (t t' : Nat) (h : t ≤ t')
    (hoff : update_view closedAt t = AppState.Off) :
    update_view closedAt t' = AppState.Off := by
  cases closedAt with
  | none => simp [update_view, send_event, signalOf] at hoff
  | some c =>
    by_cases hc : t < c
    · simp [update_view, send_event, signalOf, hc] at hoff
    · have hc' : ¬ t' < c := by omega
      simp [update_view, send_event, signalOf, hc']

/-- C6 witness: with teardown at time `0`, a send at time `0` observes
`Off` and the later send at time `1` observes `Off` as well. -/
theorem off_terminal_witness : update_view (some 0) 1 = AppState.Off :=
  off_terminal (some 0) 0 1 (by decide) (by decide)

/-- C7: a `CloseRequested` or `Destroyed` event leaves the control flow at
`Exit`, and the run over any event sequence starting with such an event
equals the run over that event alone — the later events produce no
callback dispatch and no rendering. -/
theorem close_terminates {U : Type} (now : Nat) (sf : ℚ) (e : Event U)
    (rest : List (Event U)) (h : requestsExit e = true) :
    (loopBody now sf e).control_flow = ControlFlow.Exit ∧
    runEvents sf (e :: rest) = runEvents sf [e] := by
  have hx := loopBody_exits 0 sf e h
  exact ⟨loopBody_exits now sf e h, by simp [runEvents, hx]⟩

/-- C7 witness: a `CloseRequested` event followed by another event yields
the same run as the `CloseRequested` event alone. -/
theorem close_terminates_witness :
    (loopBody (U := Nat) 5 1 (Event.WindowEvent WindowEvent.CloseRequested)).control_flow
        = ControlFlow.Exit ∧
    runEvents (U := Nat) 1
        [Event.WindowEvent WindowEvent.CloseRequested, Event.OtherGlutin]
      = runEvents 1 [Event.WindowEvent WindowEvent.CloseRequested] :=
  close_terminates 5 1 (Event.WindowEvent WindowEvent.CloseRequested)
    [Event.OtherGlutin] (by decide)

/-- C8: every loop iteration renders exactly once, the render is the first
callback of the iteration (before event processing), and the control flow
afterwards is `WaitUntil (now + 16_666_667 ns)` unless the event requests
termination, in which case it is `Exit`. -/
theorem render_cadence {U : Type} (now : Nat) (sf : ℚ) (e : Event U) :
    ((loopBody now sf e).callbacks).head? = some Callback.render ∧
    ((loopBody now sf e).callbacks).countP (fun c => isRender c) = 1 ∧
    (requestsExit e = false →
      (loopBody now sf e).control_flow = ControlFlow.WaitUntil (now + 16666667)) ∧
    (requestsExit e = true → (loopBody now sf e).control_flow = ControlFlow.Exit) := by
  refine ⟨?_, ?_, fun h => loopBody_waits now sf e h, fun h => loopBody_exits now sf e h⟩
  · rcases e with we | u | _ <;> rfl
  · rcases e with we | u | _
    · rcases we with _ | _ | ⟨vk, s⟩ | b | ps | pp | m | ⟨ms, mb⟩ | nf | _ <;> try rfl
      · cases vk <;> cases s <;> rfl
      · cases ms <;> rfl
    · rfl
    · rfl

/-- C8 witness: on a concrete non-terminating event the control flow is
`WaitUntil (now + 16_666_667)` with `now = 0`. -/
theorem render_cadence_witness :
    (loopBody (U := Nat) 0 1 Event.OtherGlutin).control_flow
      = ControlFlow.WaitUntil (0 + 16666667) :=
  (render_cadence 0 1 Event.OtherGlutin).2.2.1 (by decide)

/-- Helper: a non-terminating event unfolds one step of `runEvents`. -/
theorem runEvents_cons {U : Type} (sf : ℚ) (e : Event U) (rest : List (Event U))
    (h : requestsExit e = false) :
    runEvents sf (e :: rest)
      = ((loopBody 0 sf e).callbacks ++ (runEvents (loopBody 0 sf e).scale_factor rest).1,
         (runEvents (loopBody 0 sf e).scale_factor rest).2) := by
  have hw := loopBody_waits 0 sf e h
  simp [runEvents, hw]

/-- Helper: over an exit-free prefix, the run of `xs ++ ys` is the run of
`xs` followed by the run of `ys` from the scale factor `xs` left behind —
callbacks already emitted for `xs` are final. -/
theorem runEvents_append {U : Type} (sf : ℚ) (xs ys : List (Event U))
    (h : noExit xs = true) :
    runEvents sf (xs ++ ys)
      = ((runEvents sf xs).1 ++ (runEvents (runEvents sf xs).2 ys).1,
         (runEvents (runEvents sf xs).2 ys).2) := by
  induction xs generalizing sf with
  | nil => simp [runEvents]
  | cons e rest ih =>
    simp only [noExit, List.all_cons, Bool.and_eq_true, Bool.not_eq_true'] at h
    obtain ⟨he, hrest⟩ := h
    rw [List.cons_append, runEvents_cons _ _ _ he, runEvents_cons _ _ _ he,
      ih _ hrest, List.append_assoc]

/-- Helper: over an exit-free event list the final scale factor is the
fold that replaces it at each `ScaleFactorChanged` and nowhere else. -/
theorem runEvents_scale {U : Type} (sf : ℚ) (xs : List (Event U))
    (h : noExit xs = true) :
    (runEvents sf xs).2 = factorAfter sf xs := by
  induction xs generalizing sf with
  | nil => rfl
  | cons e rest ih =>
    simp only [noExit, List.all_cons, Bool.and_eq_true, Bool.not_eq_true'] at h
    obtain ⟨he, hrest⟩ := h
    rw [runEvents_cons _ _ _ he]
    have := ih (loopBody 0 sf e).scale_factor hrest
    rw [this, loopBody_scale]
    rcases e with we | u | _
    · rcases we with _ | _ | ⟨vk, s⟩ | b | ps | pp | m | ⟨ms, mb⟩ | nf | _ <;> rfl
    · rfl
    · rfl

/-- C4: a `Resized` or `CursorMoved` event is converted with the scale
factor established by the most recent preceding `ScaleFactorChanged`
event (the starting factor if none precedes it); callbacks already emitted
for a prefix are final — appending further events only appends to the
trace — and only `ScaleFactorChanged` events modify the scale factor. -/
theorem scale_factor_discipline {U : Type} (sf : ℚ) (xs : List (Event U))
    (ps pp : Physical) (h : noExit xs = true) :
    (runEvents sf (xs ++ [Event.WindowEvent (WindowEvent.Resized ps)])).1
      = (runEvents sf xs).1 ++
        [Callback.render, Callback.resize (from_physical ps (factorAfter sf xs))] ∧
    (runEvents sf (xs ++ [Event.WindowEvent (WindowEvent.CursorMoved pp)])).1
      = (runEvents sf xs).1 ++
        [Callback.render, Callback.move_cursor (from_physical pp (factorAfter sf xs))] ∧
    (runEvents sf xs).2 = factorAfter sf xs ∧
    (∀ ys : List (Event U), ∃ tl,
      (runEvents sf (xs ++ ys)).1 = (runEvents sf xs).1 ++ tl) := by
  refine ⟨?_, ?_, runEvents_scale sf xs h, fun ys => ?_⟩
  · rw [runEvents_append sf _ _ h, runEvents_scale sf xs h]
    simp [runEvents, loopBody, handleWindowEvent]
  · rw [runEvents_append sf _ _ h, runEvents_scale sf xs h]
    simp [runEvents, loopBody, handleWindowEvent]
  · exact ⟨(runEvents (runEvents sf xs).2 ys).1, by rw [runEvents_append sf xs ys h]⟩

/-- C4 witness: after a concrete `ScaleFactorChanged` to `2`, the final
scale factor of the run equals the folded factor. -/
theorem scale_factor_discipline_witness :
    (runEvents (U := Nat) 1 [Event.WindowEvent (WindowEvent.ScaleFactorChanged 2)]).2
      = factorAfter (U := Nat) 1 [Event.WindowEvent (WindowEvent.ScaleFactorChanged 2)] :=
  (scale_factor_discipline 1 [Event.WindowEvent (WindowEvent.ScaleFactorChanged 2)]
    (3, 4) (5, 6) (by decide)).2.2.1

/-- Helper: the per-iteration relation `LoopStep` is functional: for a
fixed instant, scale factor and event, at most one callback trace, output
scale factor and control flow are related. -/
theorem loopStep_deterministic {U : Type} {now : Nat} {sf : ℚ} {e : Event U}
    {c₁ c₂ : List (Callback U)} {s₁ s₂ : ℚ} {f₁ f₂ : ControlFlow}
    (h₁ : LoopStep now sf e c₁ s₁ f₁) (h₂ : LoopStep now sf e c₂ s₂ f₂) :
    c₁ = c₂ ∧ s₁ = s₂ ∧ f₁ = f₂ := by
  cases h₁ <;> cases h₂ <;> simp_all

/-- Helper: the loop-body function realizes the `LoopStep` relation. -/
theorem loopBody_step {U : Type} (now : Nat) (sf : ℚ) (e : Event U) :
    LoopStep now sf e (loopBody now sf e).callbacks (loopBody now sf e).scale_factor
      (loopBody now sf e).control_flow := by
  rcases e with we | u | _
  · rcases we with _ | _ | ⟨vk, s⟩ | b | ps | pp | m | ⟨ms, mb⟩ | nf | _
    · exact LoopStep.closeRequested now sf
    · exact LoopStep.destroyed now sf
    · rcases vk with _ | k <;> rcases s with _ | _
      · exact LoopStep.keyUnresolved now sf ElementState.Pressed
      · exact LoopStep.keyUnresolved now sf ElementState.Released
      · exact LoopStep.keyPressed now sf k
      · exact LoopStep.keyReleased now sf k
    · exact LoopStep.focused now sf b
    · exact LoopStep.resized now sf ps
    · exact LoopStep.cursorMoved now sf pp
    · exact LoopStep.modifiersChanged now sf m
    · rcases ms with _ | _
      · exact LoopStep.mousePressed now sf mb
      · exact LoopStep.mouseReleased now sf mb
    · exact LoopStep.scaleFactorChanged now sf nf
    · exact LoopStep.otherWindow now sf
  · exact LoopStep.userEvent now sf u
  · exact LoopStep.otherGlutin now sf

/-- Helper: the driver function realizes the whole-run relation. -/
theorem runEvents_sound {U : Type} (sf : ℚ) (evts : List (Event U)) :
    RunRel sf evts (runEvents sf evts).1 (runEvents sf evts).2 := by
  induction evts generalizing sf with
  | nil => exact RunRel.nil sf
  | cons e rest ih =>
    have hstep := loopBody_step 0 sf e
    by_cases hx : (loopBody 0 sf e).control_flow = ControlFlow.Exit
    · have : runEvents sf (e :: rest)
          = ((loopBody 0 sf e).callbacks, (loopBody 0 sf e).scale_factor) := by
        simp [runEvents, hx]
      rw [this]
      exact RunRel.exits sf e rest _ _ (hx ▸ hstep)
    · have hne : requestsExit e = false := by
        by_contra hc
        exact hx (loopBody_exits 0 sf e (by simpa using hc))
      rw [runEvents_cons sf e rest hne]
      have hw := loopBody_waits 0 sf e hne
      exact RunRel.conts sf e rest _ _ (0 + frameInterval) _ _ (hw ▸ hstep)
        (ih (loopBody 0 sf e).scale_factor)

/-- C10: the main loop is deterministic — two runs related to the same
starting scale factor and the same event sequence have the same callback
trace (same invocations, same arguments, same order) and the same final
scale factor. -/
theorem run_deterministic {U : Type} {sf : ℚ} {evts : List (Event U)}
    {c₁ c₂ : List (Callback U)} {s₁ s₂ : ℚ}
    (h₁ : RunRel sf evts c₁ s₁) (h₂ : RunRel sf evts c₂ s₂) :
    c₁ = c₂ ∧ s₁ = s₂ := by
  induction h₁ generalizing c₂ s₂ with
  | nil sf => cases h₂ with
    | nil => exact ⟨rfl, rfl⟩
  | exits sf e rest cbs sf' hstep =>
    cases h₂ with
    | exits _ _ _ cbs₂ sf₂ hstep₂ =>
      obtain ⟨hc, hs, -⟩ := loopStep_deterministic hstep hstep₂
      exact ⟨hc, hs⟩
    | conts _ _ _ cbs₂ sf₂' t₂ cbs₂' sf₂'' hstep₂ hrun₂ =>
      obtain ⟨-, -, hf⟩ := loopStep_deterministic hstep hstep₂
      exact absurd hf (by simp)
  | conts sf e rest cbs sf' t cbs' sf'' hstep hrun ih =>
    cases h₂ with
    | exits _ _ _ cbs₂ sf₂ hstep₂ =>
      obtain ⟨-, -, hf⟩ := loopStep_deterministic hstep hstep₂
      exact absurd hf (by simp)
    | conts _ _ _ cbs₂ sf₂' t₂ cbs₂' sf₂'' hstep₂ hrun₂ =>
      obtain ⟨hc, hs, -⟩ := loopStep_deterministic hstep hstep₂
      subst hs
      obtain ⟨hc', hs'⟩ := ih hrun₂
      exact ⟨by rw [hc, hc'], hs'⟩

/-- C10 witness: two concrete derivations for the singleton run over an
`OtherGlutin` event yield the same trace and final factor. -/
theorem run_deterministic_witness :
    (runEvents (U := Nat) 1 [Event.OtherGlutin]).1
        = (runEvents (U := Nat) 1 [Event.OtherGlutin]).1 ∧
    (runEvents (U := Nat) 1 [Event.OtherGlutin]).2
        = (runEvents (U := Nat) 1 [Event.OtherGlutin]).2 :=
  run_deterministic (runEvents_sound 1 [Event.OtherGlutin])
    (runEvents_sound 1 [Event.OtherGlutin])

end Swa
